import Mathlib

/-!  Shallow embedding of the sfblog_tessellation demo.

Two source files are modelled.  `src/tessellation_local.py` holds the real
logic: GeoJSON ring extraction, lookup of polygon rows by scale, polygon
fill through one of two h3 calling conventions selected by a startup
capability probe, and boundary derivation over the fill set.  Its
definitions live in namespace `TessellationLocal`.  `src/tessellation.py`
is the remote variant whose fill functions branch on the scale string and
fall off the end of the function for any other scale; it lives in
namespace `Tessellation`.  -/

/-- Failure modes observable from the Python code: the ValueError raised by
`extract_rings` for an unsupported GeoJSON type, the ValueError raised by
`get_df_shape_2` when no CSV row matches the scale, a Python IndexError from
indexing an empty list, an error raised inside the external h3 library
(for example an out-of-range resolution), and the AttributeError raised
at import time when neither h3 calling convention exists. -/
inductive Err where
  | unsupportedGeometryType (typeName : String)
  | noGeometryForScale (scale : String)
  | indexError
  | invalidResolution (res : Nat)
  | gridIndexUnavailable
deriving DecidableEq

/-- Parsed GeoJSON geometry as `extract_rings` inspects it after
`json.loads`: the type tag together with the coordinate array of the
matching shape.  `α` is the type of one coordinate position (a lon/lat
pair); the code never looks inside a position.  A geometry whose type is
neither Polygon nor MultiPolygon is kept only as its offending type
string, since the code reads nothing else from it. -/
inductive Geo (α : Type) where
  | polygon (coordinates : List (List α))
  | multiPolygon (coordinates : List (List (List α)))
  | other (typeName : String)
deriving DecidableEq

/-- One row of data/h3_polygon_spherical.csv after `load_polygon_rows`:
the `scale_of_polygon` column and the `geog` column (the GeoJSON value,
already parsed; `json.loads` happens inside `extract_rings`). -/
structure Row (α : Type) where
  scale_of_polygon : String
  geog : Geo α
deriving DecidableEq

/-- Cell identifiers are opaque tokens compared only for equality and set
membership; we model them as naturals. -/
abbrev Cell : Type := Nat

/-- The polygon-fill convention selected at import by line 10 of
tessellation_local.py: either the v4 function `polygon_to_cells(gj, res)`
or the v3 function `polyfill(gj, res, geo_json_conformant)`.  Calls into
the external h3 index may fail, so both return `Except Err`. -/
inductive FillConv (α : Type) where
  | v4 (f : Geo α → Nat → Except Err (Finset Cell))
  | v3 (f : Geo α → Nat → Bool → Except Err (Finset Cell))

/-- The surface of the imported h3 module that line 10 probes: each of the
two fill calling conventions is present or absent. -/
structure H3Module (α : Type) where
  polygon_to_cells? : Option (Geo α → Nat → Except Err (Finset Cell))
  polyfill? : Option (Geo α → Nat → Bool → Except Err (Finset Cell))

/-- Line 10 of tessellation_local.py, run once at import:
`getattr(h3, "polygon_to_cells", None) or getattr(h3, "polyfill")`.
When `polygon_to_cells` is absent the first getattr yields None (falsy), so
Python evaluates `getattr(h3, "polyfill")`, which raises AttributeError
when that attribute is also absent; the raise happens at import, before
any fill is computed. -/
def _polygon_to_cells {α : Type} (m : H3Module α) : Except Err (FillConv α) :=
  match m.polygon_to_cells? with
  | some f => .ok (.v4 f)
  | none =>
    match m.polyfill? with
    | some f => .ok (.v3 f)
    | none => .error .gridIndexUnavailable

namespace TessellationLocal

/-- Function `extract_rings` (tessellation_local.py lines 54-63): for a
Polygon return coordinates[0], for a MultiPolygon return
coordinates[0][0], for anything else raise a ValueError carrying the
offending type string.  Indexing an empty coordinates array in Python
raises IndexError, modelled as `Err.indexError`. -/
def extract_rings {α : Type} : Geo α → Except Err (List α)
  | .polygon [] => .error .indexError
  | .polygon (ring :: _) => .ok ring
  | .multiPolygon [] => .error .indexError
  | .multiPolygon ([] :: _) => .error .indexError
  | .multiPolygon ((ring :: _) :: _) => .ok ring
  | .other t => .error (.unsupportedGeometryType t)

/-- Column transform `df["geog"].apply(extract_rings)` (line 65): extract
every row's ring in order; the first row on which `extract_rings` raises
aborts the whole dataframe computation. -/
def apply_extract_rings {α : Type} : List (Row α) → Except Err (List (List α))
  | [] => .ok []
  | r :: rs => do
    let ring ← extract_rings r.geog
    let rest ← apply_extract_rings rs
    return ring :: rest

/-- Function `get_df_shape_2` (lines 44-66): keep the CSV rows whose
`scale_of_polygon` equals the requested scale; raise when the filtered
frame is empty (the message names the scale); otherwise return the
extracted ring of every remaining row as the coordinates column. -/
def get_df_shape_2 {α : Type} (rows : List (Row α)) (scale : String) :
    Except Err (List (List α)) :=
  let df := rows.filter (fun r => r.scale_of_polygon = scale)
  if df.isEmpty then .error (.noGeometryForScale scale)
  else apply_extract_rings df

/-- Function `polygon_geojson_for` (lines 68-74): take the first row of
`get_df_shape_2` (iloc[0]) and wrap its coordinates back into a single
GeoJSON Polygon with that ring as its only member. -/
def polygon_geojson_for {α : Type} (rows : List (Row α)) (scale : String) :
    Except Err (Geo α) := do
  let df ← get_df_shape_2 rows scale
  match df with
  | [] => .error .indexError
  | coords :: _ => .ok (.polygon [coords])

/-- Function `get_df_polyfill_2` (lines 80-91): fetch the polygon for the
scale, then dispatch on the probed convention — v4 calls
`polygon_to_cells(gj, res)`, v3 calls `polyfill(gj, res, True)`.  The
resolution is passed through unchanged and nothing validates it before the
external call. -/
def get_df_polyfill_2 {α : Type} (conv : FillConv α) (rows : List (Row α))
    (res : Nat) (scale : String) : Except Err (Finset Cell) := do
  let gj ← polygon_geojson_for rows scale
  match conv with
  | .v4 f => f gj res
  | .v3 f => f gj res true

/-- Loop of `get_df_coverage_2` (lines 101-108): keep each cell of the fill
set whose radius-1 disk, the cell itself removed, has a member outside the
fill. -/
def boundary (grid_disk : Cell → Nat → Finset Cell) (poly : Finset Cell) :
    Finset Cell :=
  poly.filter (fun h => ∃ n ∈ (grid_disk h 1).erase h, n ∉ poly)

/-- Function `get_df_coverage_2` (lines 93-109): the fill set from
`get_df_polyfill_2` at the same resolution and scale, then its boundary. -/
def get_df_coverage_2 {α : Type} (grid_disk : Cell → Nat → Finset Cell)
    (conv : FillConv α) (rows : List (Row α)) (res : Nat) (scale : String) :
    Except Err (Finset Cell) := do
  let poly ← get_df_polyfill_2 conv rows res scale
  return boundary grid_disk poly

end TessellationLocal

namespace Tessellation

/-- SQL text of the Global branch of the remote `get_df_coverage_2`
(src/tessellation.py lines 53-55), the resolution interpolated as in the
f-string. -/
def coverage_sql_global (h3_res_2 : Nat) : String :=
  "select value::string as h3 from snowpublic.streamlit.h3_polygon_planar, TABLE(FLATTEN(h3_coverage_strings(to_geography('POLYGON((-118.389015198 34.092757508,-73.933868408 40.864977873,-78.47448349 33.898489435,-118.389015198 34.092757508))'), " ++ toString h3_res_2 ++ ")))"

/-- SQL text of the Local branch of the remote `get_df_coverage_2`
(src/tessellation.py lines 57-59), resolution and scale interpolated. -/
def coverage_sql_local (h3_res_2 : Nat) (poly_scale_2 : String) : String :=
  "select value::string as h3 from snowpublic.streamlit.h3_polygon_planar, TABLE(FLATTEN(h3_coverage_strings(to_geography('POLYGON((-73.819815516 40.783403069,-74.161494076 40.717999437,-73.835597634 40.727238441,-73.819815516 40.783403069))'), " ++ toString h3_res_2 ++ "))) where scale_of_polygon = '" ++ poly_scale_2 ++ "'"

/-- SQL text of the Global branch of the remote `get_df_polyfill_2`
(src/tessellation.py lines 75-77). -/
def polyfill_sql_global (h3_res_2 : Nat) : String :=
  "select value::string as h3 from snowpublic.streamlit.h3_polygon_planar, TABLE(FLATTEN(h3_polygon_to_cells_strings(to_geography('POLYGON((-118.389015198 34.092757508,-73.933868408 40.864977873,-78.47448349 33.898489435,-118.389015198 34.092757508))'), " ++ toString h3_res_2 ++ ")))"

/-- SQL text of the Local branch of the remote `get_df_polyfill_2`
(src/tessellation.py lines 79-81). -/
def polyfill_sql_local (h3_res_2 : Nat) (poly_scale_2 : String) : String :=
  "select value::string as h3 from snowpublic.streamlit.h3_polygon_planar, TABLE(FLATTEN(h3_polygon_to_cells_strings(to_geography('POLYGON((-73.819815516 40.783403069,-74.161494076 40.717999437,-73.835597634 40.727238441,-73.819815516 40.783403069))'), " ++ toString h3_res_2 ++ "))) where scale_of_polygon = '" ++ poly_scale_2 ++ "'"

/-- Remote `get_df_coverage_2` (src/tessellation.py lines 50-59): two
guarded returns and, for any other scale, Python falls off the end of the
function and implicitly returns None — modelled as `none`.  `session_sql`
stands for `session.sql(query).to_pandas()`, producing the values of the
h3 column. -/
def get_df_coverage_2 (session_sql : String → List String) (h3_res_2 : Nat)
    (poly_scale_2 : String) : Option (List String) :=
  if poly_scale_2 = "Global" then
    some (session_sql (coverage_sql_global h3_res_2))
  else if poly_scale_2 = "Local" then
    some (session_sql (coverage_sql_local h3_res_2 poly_scale_2))
  else none

/-- Remote `get_df_polyfill_2` (src/tessellation.py lines 72-81): same
shape as the remote coverage function, silently yielding None for a scale
that is neither Global nor Local. -/
def get_df_polyfill_2 (session_sql : String → List String) (h3_res_2 : Nat)
    (poly_scale_2 : String) : Option (List String) :=
  if poly_scale_2 = "Global" then
    some (session_sql (polyfill_sql_global h3_res_2))
  else if poly_scale_2 = "Local" then
    some (session_sql (polyfill_sql_local h3_res_2 poly_scale_2))
  else none

end Tessellation

/-- C1: a cell is in the derived boundary of a fill set exactly when it is
in the fill and at least one cell of its radius-1 disk, the cell itself
excluded, is not in the fill. -/
theorem C1_boundary_characterization (grid_disk : Cell → Nat → Finset Cell)
    (fill : Finset Cell) (c : Cell) :
    c ∈ TessellationLocal.boundary grid_disk fill ↔
      c ∈ fill ∧ ∃ n ∈ (grid_disk c 1).erase c, n ∉ fill := by
  simp [TessellationLocal.boundary]

/-- C2: the extractor returns exactly the first ring of a Polygon and
exactly the first polygon's first ring of a MultiPolygon, so no coordinate
of a later polygon or of a hole ring reaches the result. -/
theorem C2_extract_first_ring {α : Type} (ring : List α)
    (rest : List (List α)) (holes : List (List α))
    (polys : List (List (List α))) :
    TessellationLocal.extract_rings (Geo.polygon (ring :: rest)) = .ok ring ∧
    TessellationLocal.extract_rings
        (Geo.multiPolygon ((ring :: holes) :: polys)) = .ok ring :=
  ⟨rfl, rfl⟩

/-- C3: every successfully computed coverage (boundary) set is a subset of
the polyfill (fill) set computed at the same resolution and scale. -/
theorem C3_boundary_subset_fill {α : Type}
    (grid_disk : Cell → Nat → Finset Cell) (conv : FillConv α)
    (rows : List (Row α)) (res : Nat) (scale : String)
    (poly cov : Finset Cell)
    (hpoly : TessellationLocal.get_df_polyfill_2 conv rows res scale = .ok poly)
    (hcov : TessellationLocal.get_df_coverage_2 grid_disk conv rows res scale
      = .ok cov) :
    cov ⊆ poly := by
  have h : TessellationLocal.get_df_coverage_2 grid_disk conv rows res scale
      = .ok (TessellationLocal.boundary grid_disk poly) := by
    simp [TessellationLocal.get_df_coverage_2, hpoly, Except.bind]
  rw [h] at hcov
  injection hcov with h2
  rw [← h2]
  exact Finset.filter_subset _ _

/-- Witness for C3 at a concrete one-row table, a v4 index returning two
cells, and a disk function sending each cell to its successor. -/
theorem C3_boundary_subset_fill_witness : ({2} : Finset Cell) ⊆ {1, 2} :=
  C3_boundary_subset_fill (fun h _ => {h + 1})
    (FillConv.v4 (fun _ _ => .ok {1, 2}))
    [⟨"Local", Geo.polygon [[0]]⟩] 9 "Local" {1, 2} {2} (by rfl) (by rfl)

/-- C4: a geometry whose type is neither Polygon nor MultiPolygon makes
the extractor fail with the unsupported-type error carrying the offending
type string; no ring is returned. -/
theorem C4_unsupported_type {α : Type} (t : String) :
    TessellationLocal.extract_rings (Geo.other t : Geo α) =
      .error (.unsupportedGeometryType t) :=
  rfl

/-- C8: the derived boundary is unchanged when the neighbor primitive is
replaced by one that also returns the queried cell itself, because the
cell is removed from the returned disk before the membership test. -/
theorem C8_self_inclusion_irrelevant (grid_disk : Cell → Nat → Finset Cell)
    (fill : Finset Cell) :
    TessellationLocal.boundary grid_disk fill =
      TessellationLocal.boundary (fun c r => grid_disk c r ∪ {c}) fill := by
  unfold TessellationLocal.boundary
  apply Finset.filter_congr
  intro x _
  rw [Finset.erase_union_distrib, Finset.erase_singleton, Finset.union_empty]

/-- C5 counterexample: at resolution 16, outside the valid h3 range 0..15,
the local polyfill does not fail with an invalid-resolution error before
calling the grid index — the index is called, receives the resolution
unchanged (it answers with the singleton of the resolution it was given),
and its answer is returned as the result. -/
theorem C5_no_prevalidation_counterexample :
    TessellationLocal.get_df_polyfill_2
        (FillConv.v4 (fun _ res => .ok {res}))
        [⟨"Local", Geo.polygon [[0]]⟩] 16 "Local" = .ok ({16} : Finset Cell) ∧
    TessellationLocal.get_df_polyfill_2
        (FillConv.v4 (fun _ res => .ok {res}))
        [⟨"Local", Geo.polygon [[0]]⟩] 16 "Local" ≠
      .error (Err.invalidResolution 16) := by
  refine ⟨by rfl, ?_⟩
  intro h
  rw [show TessellationLocal.get_df_polyfill_2
        (FillConv.v4 (fun _ res => .ok {res}))
        [⟨"Local", Geo.polygon [[0]]⟩] 16 "Local"
      = .ok ({16} : Finset Cell) from rfl] at h
  exact Except.noConfusion h

/-- C5 amended: the local polyfill performs no resolution validation of its
own; whenever the polygon lookup succeeds, the resolution is forwarded
unchanged to the probed grid-index convention (v4 as is, v3 with the
geo-json-conformant flag set), and whatever that external call returns —
a fill set or an error such as an invalid-resolution failure raised by the
index itself — is the result, unaltered. -/
theorem C5_resolution_forwarded {α : Type}
    (f : Geo α → Nat → Except Err (Finset Cell))
    (f3 : Geo α → Nat → Bool → Except Err (Finset Cell))
    (rows : List (Row α)) (res : Nat) (scale : String) (gj : Geo α)
    (hgj : TessellationLocal.polygon_geojson_for rows scale = .ok gj) :
    TessellationLocal.get_df_polyfill_2 (.v4 f) rows res scale = f gj res ∧
    TessellationLocal.get_df_polyfill_2 (.v3 f3) rows res scale
      = f3 gj res true := by
  unfold TessellationLocal.get_df_polyfill_2
  rw [hgj]
  exact ⟨rfl, rfl⟩

/-- Witness for C5 amended at a concrete one-row table and index functions
echoing the resolution they receive. -/
theorem C5_resolution_forwarded_witness :
    TessellationLocal.get_df_polyfill_2
        (FillConv.v4 (fun _ res => .ok {res}))
        [⟨"Local", Geo.polygon [[0]]⟩] 9 "Local" = .ok ({9} : Finset Cell) ∧
    TessellationLocal.get_df_polyfill_2
        (FillConv.v3 (fun _ res _ => .ok {res + 1}))
        [⟨"Local", Geo.polygon [[0]]⟩] 9 "Local" = .ok ({10} : Finset Cell) :=
  C5_resolution_forwarded (fun _ res => .ok {res}) (fun _ res _ => .ok {res + 1})
    [⟨"Local", Geo.polygon [[0]]⟩] 9 "Local" (Geo.polygon [[0]]) (by rfl)

/-- C6: evaluating the remote fill operations at the scale Mars, which is
neither Global nor Local — both guarded returns are skipped, the Python
function falls off its end and silently yields None: no result and no
error. -/
theorem C6_silent_none_at_unknown_scale :
    Tessellation.get_df_coverage_2 (fun _ => []) 9 "Mars" = none ∧
    Tessellation.get_df_polyfill_2 (fun _ => []) 9 "Mars" = none :=
  ⟨rfl, rfl⟩

/-- C7: when no row matches the scale, the shape lookup and the polygon
lookup built on it fail with the no-geometry-for-scale error; when the
shape lookup succeeds its row list is never empty, and the polygon lookup
wraps exactly the first returned ring into a single Polygon. -/
theorem C7_missing_or_single_geometry {α : Type} (rows : List (Row α))
    (scale : String) :
    (rows.filter (fun r => r.scale_of_polygon = scale) = [] →
      TessellationLocal.get_df_shape_2 rows scale
          = .error (.noGeometryForScale scale) ∧
      TessellationLocal.polygon_geojson_for rows scale
          = .error (.noGeometryForScale scale)) ∧
    (∀ ring ringsRest,
      TessellationLocal.get_df_shape_2 rows scale = .ok (ring :: ringsRest) →
      TessellationLocal.polygon_geojson_for rows scale
          = .ok (Geo.polygon [ring])) ∧
    (∀ rings, TessellationLocal.get_df_shape_2 rows scale = .ok rings →
      rings ≠ []) := by
  refine ⟨?_, ?_, ?_⟩
  · intro hfilter
    have hshape : TessellationLocal.get_df_shape_2 rows scale
        = .error (.noGeometryForScale scale) := by
      simp [TessellationLocal.get_df_shape_2, hfilter]
    refine ⟨hshape, ?_⟩
    unfold TessellationLocal.polygon_geojson_for
    rw [hshape]
    rfl
  · intro ring ringsRest hok
    unfold TessellationLocal.polygon_geojson_for
    rw [hok]
    rfl
  · intro rings hok hnil
    subst hnil
    unfold TessellationLocal.get_df_shape_2 at hok
    rcases hdf : rows.filter (fun r => r.scale_of_polygon = scale) with _ | ⟨r, rs⟩
    · rw [hdf] at hok
      simp at hok
    · rw [hdf] at hok
      simp only [List.isEmpty_cons, if_false, Bool.false_eq_true] at hok
      unfold TessellationLocal.apply_extract_rings at hok
      rcases h1 : TessellationLocal.extract_rings r.geog with e | ring <;>
        rw [h1] at hok
      · exact Except.noConfusion hok
      · rcases h2 : TessellationLocal.apply_extract_rings rs with e | rest <;>
          rw [h2] at hok
        · exact Except.noConfusion hok
        · injection hok with h3
          exact List.noConfusion h3

/-- C9: the startup capability probe fails with the grid-index-unavailable
error exactly when neither h3 calling convention is present on the
module as imported; being a pure function of that module, the chosen
convention is fixed once at import. -/
theorem C9_probe_fails_iff_neither {α : Type} (m : H3Module α) :
    _polygon_to_cells m = .error Err.gridIndexUnavailable ↔
      m.polygon_to_cells? = none ∧ m.polyfill? = none := by
  cases m with
  | mk p4 p3 => cases p4 <;> cases p3 <;> simp [_polygon_to_cells]

/-- C10: with at least two rows matching the scale, the shape dataframe
keeps one ring per matching row, while the polygon handed to the fill —
and hence the polyfill set and its derived boundary — is built from the
first matching row's ring alone. -/
theorem C10_first_row_selection {α : Type} (rows : List (Row α))
    (scale : String) (r1 r2 : Row α) (rest : List (Row α))
    (ring1 : List α) (rings2 : List (List α))
    (hfilter : rows.filter (fun r => r.scale_of_polygon = scale)
      = r1 :: r2 :: rest)
    (h1 : TessellationLocal.extract_rings r1.geog = .ok ring1)
    (h2 : TessellationLocal.apply_extract_rings (r2 :: rest) = .ok rings2) :
    TessellationLocal.get_df_shape_2 rows scale = .ok (ring1 :: rings2) ∧
    TessellationLocal.polygon_geojson_for rows scale
      = .ok (Geo.polygon [ring1]) ∧
    ∀ (f : Geo α → Nat → Except Err (Finset Cell)) (res : Nat)
      (grid_disk : Cell → Nat → Finset Cell),
      TessellationLocal.get_df_polyfill_2 (.v4 f) rows res scale
        = f (Geo.polygon [ring1]) res ∧
      TessellationLocal.get_df_coverage_2 grid_disk (.v4 f) rows res scale
        = (f (Geo.polygon [ring1]) res).map
            (TessellationLocal.boundary grid_disk) := by
  have hshape : TessellationLocal.get_df_shape_2 rows scale
      = .ok (ring1 :: rings2) := by
    unfold TessellationLocal.get_df_shape_2
    rw [hfilter]
    simp only [List.isEmpty_cons, Bool.false_eq_true, if_false]
    unfold TessellationLocal.apply_extract_rings
    rw [h1, h2]
    rfl
  have hgeo : TessellationLocal.polygon_geojson_for rows scale
      = .ok (Geo.polygon [ring1]) := by
    unfold TessellationLocal.polygon_geojson_for
    rw [hshape]
    rfl
  refine ⟨hshape, hgeo, ?_⟩
  intro f res grid_disk
  have hpf : TessellationLocal.get_df_polyfill_2 (.v4 f) rows res scale
      = f (Geo.polygon [ring1]) res := by
    unfold TessellationLocal.get_df_polyfill_2
    rw [hgeo]
    rfl
  refine ⟨hpf, ?_⟩
  unfold TessellationLocal.get_df_coverage_2
  rw [hpf]
  cases hfr : f (Geo.polygon [ring1]) res <;> rfl

/-- Witness for C10 at a concrete two-row table both rows of scale Local:
the shape dataframe keeps both rings. -/
theorem C10_first_row_selection_witness :
    TessellationLocal.get_df_shape_2
        [⟨"Local", Geo.polygon [[1]]⟩, ⟨"Local", Geo.polygon [[2]]⟩] "Local"
      = .ok [[1], [2]] :=
  (C10_first_row_selection
    [⟨"Local", Geo.polygon [[1]]⟩, ⟨"Local", Geo.polygon [[2]]⟩] "Local"
    ⟨"Local", Geo.polygon [[1]]⟩ ⟨"Local", Geo.polygon [[2]]⟩ []
    [1] [[2]] (by rfl) (by rfl) (by rfl)).1
